import Mathlib

/-!
# Verification of `xcsv.plot` (xcsv-plot)

A shallow embedding of the data-preparation and parameter-resolution logic of
`src/xcsv/plot/__init__.py` (class `Plot`), together with proofs about it.

Modelling conventions:
* A pandas data table (`dataset.data`) is a `DataFrame`: an ordered list of
  named columns (`Series`), each holding a list of integer values.  The number
  of rows (`len(dataset.data)` in Python) is the length of the first column.
* A dataset (`XCSV` object) is its data table plus the header-section metadata,
  modelled as an association list from keys to already-resolved string values.
* Python exceptions are modelled with `Except PlotError`; the error kinds
  follow the specification's taxonomy: `ValueError` from `max()`/`min()` on an
  empty sequence and `IndexError` from `datasets[0]` on an empty list are
  `emptyInput`; a pandas `KeyError` from indexing a missing column label is
  `columnNotFound`; a pandas `IndexError` from `.iloc` with an out-of-bounds
  column position is `columnIndexOutOfRange`.
* Python truthiness on an optional string (`if not xcol:`) is the `truthy`
  test: `None` and the empty string are falsy, every other string is truthy.
* The matplotlib calls are opaque canvas effects; `plot_data` records the
  arguments of the `ax.plot` call it would make (a `DrawCall`).  The kwargs
  record `opts` is a Python `dict`, modelled as an association list with the
  `dict.update` semantics of replace-in-place-or-append.
-/

/-- The error kinds of the specification (§7). -/
inductive PlotError where
  | emptyInput
  | columnNotFound
  | columnIndexOutOfRange
  | emptyColumn
  deriving Repr, DecidableEq

/-- One named data column of a dataset's data table (a pandas `Series`). -/
structure Series where
  name : String
  values : List Int
  deriving Repr, DecidableEq

/-- A dataset's data table (a pandas `DataFrame`): ordered, label-indexable
named columns. -/
structure DataFrame where
  cols : List Series
  deriving Repr, DecidableEq

/-- `len(df)` in Python: the number of rows.  All columns of a pandas data
frame have equal length, so this is the length of the first column. -/
def DataFrame.nrows (df : DataFrame) : Nat :=
  match df.cols with
  | [] => 0
  | c :: _ => c.values.length

/-- `df[label]`: look a column up by its header label; a missing label raises
`KeyError` (`columnNotFound`). -/
def DataFrame.getCol (df : DataFrame) (label : String) : Except PlotError Series :=
  match df.cols.find? (fun s => s.name = label) with
  | some s => .ok s
  | none => .error .columnNotFound

/-- `df.iloc[:, idx]`: select a column by position.  pandas positional
indexing accepts negative positions counting from the end; a position outside
`[-n, n)` raises `IndexError` (`columnIndexOutOfRange`). -/
def DataFrame.ilocCol (df : DataFrame) (idx : Int) : Except PlotError Series :=
  let n : Int := df.cols.length
  let j : Int := if idx < 0 then n + idx else idx
  if 0 ≤ j ∧ j < n then
    match df.cols.get? j.toNat with
    | some s => .ok s
    | none => .error .columnIndexOutOfRange
  else .error .columnIndexOutOfRange

/-- An XCSV dataset: header metadata plus the data table.  Datasets are
produced by the external `xcsv` reader. -/
structure XCSV where
  metadata : List (String × String)
  data : DataFrame
  deriving Repr, DecidableEq

/-- Modelled from the spec: `XCSV.get_metadata_item_value` (the
MetadataAccessor, §4.2) lives in the external `xcsv` package, not in this
repository's sources.  For the default `header` section it looks the key up in
the header metadata and resolves an absent key to the empty string (a normal,
non-error outcome); multi-line values arrive here already newline-joined. -/
def get_metadata_item_value (d : XCSV) (key : String) : String :=
  match d.metadata.find? (fun p => p.1 = key) with
  | some p => p.2
  | none => ""

/-- Python `min(list)`: raises `ValueError` on an empty sequence
(`emptyInput`, per the specification's taxonomy, since the sequence is empty
exactly when no datasets were supplied). -/
def listMin : List Int → Except PlotError Int
  | [] => .error .emptyInput
  | x :: xs => .ok (xs.foldl min x)

/-- Python `max(list)`: raises `ValueError` on an empty sequence. -/
def listMax : List Int → Except PlotError Int
  | [] => .error .emptyInput
  | x :: xs => .ok (xs.foldl max x)

/-- `series.min()`: the minimum of a column's values.  pandas yields NaN on an
empty column; in this integer model that degenerate case is an `emptyColumn`
error, so a successful result always is a genuine minimum. -/
def Series.minVal (s : Series) : Except PlotError Int :=
  match s.values with
  | [] => .error .emptyColumn
  | x :: xs => .ok (xs.foldl min x)

/-- `series.max()`: the maximum of a column's values. -/
def Series.maxVal (s : Series) : Except PlotError Int :=
  match s.values with
  | [] => .error .emptyColumn
  | x :: xs => .ok (xs.foldl max x)

/-- `dataset.data[c].min()` for one dataset. -/
def colMin (d : XCSV) (c : String) : Except PlotError Int := do
  Series.minVal (← d.data.getCol c)

/-- `dataset.data[c].max()` for one dataset. -/
def colMax (d : XCSV) (c : String) : Except PlotError Int := do
  Series.maxVal (← d.data.getCol c)

/-- A Python list comprehension `[f(a) for a in l]`: the elements are
evaluated left to right and the first raised exception aborts the whole
comprehension. -/
def listCompr {α β : Type} (f : α → Except PlotError β) :
    List α → Except PlotError (List β)
  | [] => .ok []
  | a :: as => do
      let b ← f a
      let bs ← listCompr f as
      pure (b :: bs)

/-- `Plot.get_plot_data_extent(datasets, xcol, ycol)`
(src/xcsv/plot/__init__.py:43-68).  Returns `[left, right, bottom, top]`.
Each bracketed Python list comprehension is evaluated in full (raising on the
first failing element) before `min`/`max` is applied, and the four list
elements are evaluated left to right. -/
def get_plot_data_extent (datasets : List XCSV) (xcol : Option String)
    (ycol : String) : Except PlotError (List Int) := do
  match xcol with
  | none =>
      let right ← listMax (datasets.map (fun d => (d.data.nrows : Int) - 1))
      let bottom ← listMin (← listCompr (fun d => colMin d ycol) datasets)
      let top ← listMax (← listCompr (fun d => colMax d ycol) datasets)
      pure [0, right, bottom, top]
  | some xc =>
      let left ← listMin (← listCompr (fun d => colMin d xc) datasets)
      let right ← listMax (← listCompr (fun d => colMax d xc) datasets)
      let bottom ← listMin (← listCompr (fun d => colMin d ycol) datasets)
      let top ← listMax (← listCompr (fun d => colMax d ycol) datasets)
      pure [left, right, bottom, top]

/-- Python truthiness of an optional string: `None` and `""` are falsy. -/
def truthy : Option String → Bool
  | none => false
  | some s => s ≠ ""

/-- `datasets[0]` on a Python list: raises `IndexError` when the list is empty
(`emptyInput` in the specification's taxonomy: no datasets were supplied). -/
def firstDataset (datasets : List XCSV) : Except PlotError XCSV :=
  match datasets with
  | [] => .error .emptyInput
  | d :: _ => .ok d

/-- The figure-parameter state stored on the `Plot` object by
`_store_figure_parameters` (the fields `self.datasets`, `self.xcol`,
`self.ycol`, `self.xlabel`, `self.ylabel`, `self.title`, `self.caption`,
`self.label_key` after the call).  `xcol`/`xlabel` keep `Option` type because
they remain `None` when no x-column is resolved; the other resolved fields
always end up holding strings. -/
structure FigParams where
  datasets : List XCSV
  xcol : Option String
  ycol : String
  xlabel : Option String
  ylabel : String
  title : String
  caption : String
  label_key : String
  deriving Repr, DecidableEq

/-- `Plot._store_figure_parameters(datasets, xcol, ycol, xidx, yidx, xlabel,
ylabel, title, caption, label_key)` (src/xcsv/plot/__init__.py:255-314).
The guards are Python truthiness tests (`if not title:` etc.), so an empty
string triggers the same fallback as `None`; the fallbacks are evaluated in
source order, so the first one that needs `datasets[0]` raises on an empty
list. -/
def _store_figure_parameters (datasets : List XCSV)
    (xcol ycol : Option String) (xidx : Option Int) (yidx : Int)
    (xlabel ylabel title caption label_key : Option String) :
    Except PlotError FigParams := do
  let title2 ←
    if truthy title then pure (title.getD "")
    else do pure (get_metadata_item_value (← firstDataset datasets) "title")
  let caption2 ←
    if truthy caption then pure (caption.getD "")
    else do pure (get_metadata_item_value (← firstDataset datasets) "citation")
  let label_key2 := if truthy label_key then label_key.getD "" else "id"
  let xcol2 ←
    if truthy xcol then pure xcol
    else
      match xidx with
      | some i => do
          let d0 ← firstDataset datasets
          let s ← d0.data.ilocCol i
          pure (some s.name)
      | none => pure xcol
  let ycol2 ←
    if truthy ycol then pure (ycol.getD "")
    else do
      let d0 ← firstDataset datasets
      let s ← d0.data.ilocCol yidx
      pure s.name
  let xlabel2 := if truthy xlabel then xlabel else xcol2
  let ylabel2 := if truthy ylabel then ylabel.getD "" else ycol2
  pure { datasets := datasets, xcol := xcol2, ycol := ycol2,
         xlabel := xlabel2, ylabel := ylabel2, title := title2,
         caption := caption2, label_key := label_key2 }

/-- The arguments of one `ax.plot(...)` call issued by `plot_data`:
the x series (absent when plotting against point indices), the y series,
the legend label and the kwargs in effect for this call. -/
structure DrawCall where
  xvals : Option (List Int)
  yvals : List Int
  label : String
  opts : List (String × String)
  deriving Repr, DecidableEq

/-- Python `dict.update({k: v})` on an association list: replace the value of
an existing key in place, or append the new binding at the end. -/
def dictUpdate : List (String × String) → String → String → List (String × String)
  | [], k, v => [(k, v)]
  | (k2, v2) :: rest, k, v =>
      if k2 = k then (k, v) :: rest else (k2, v2) :: dictUpdate rest k v

/-- Python `k in dict` on an association list. -/
def dictContains (opts : List (String × String)) (k : String) : Bool :=
  opts.any (fun p => p.1 = k)

/-- `Plot.plot_data(ax, dataset, xcol, ycol, label, ...)`
(src/xcsv/plot/__init__.py:121-161), reduced to the data it hands the canvas:
`if xcol:` is a truthiness test, and indexing `dataset.data[...]` raises
`KeyError` (`columnNotFound`) for a missing label. -/
def plot_data (dataset : XCSV) (xcol : Option String) (ycol : String)
    (label : String) (opts : List (String × String)) :
    Except PlotError DrawCall := do
  if truthy xcol then
    let xs ← dataset.data.getCol (xcol.getD "")
    let ys ← dataset.data.getCol ycol
    pure { xvals := some xs.values, yvals := ys.values, label := label, opts := opts }
  else
    let ys ← dataset.data.getCol ycol
    pure { xvals := none, yvals := ys.values, label := label, opts := opts }

/-- The Python `f-string` color `C0`, `C1`, ... for series index `i`. -/
def colorName (i : Nat) : String := "C" ++ toString i

/-- The loop body of `_plot_datasets`: Python mutates the single `opts` dict
in place, so the updated dict is threaded into the next iteration; the update
happens before `plot_data` is called.  Returns the final state of `opts`
together with the draw calls issued, in order. -/
def _plot_datasets_loop (label_key : String) (xcol : Option String)
    (ycol : String) (generate_colors : Bool) :
    List XCSV → Nat → List (String × String) →
    Except PlotError (List (String × String) × List DrawCall)
  | [], _, opts => .ok (opts, [])
  | d :: rest, i, opts => do
      let label := get_metadata_item_value d label_key
      let opts2 := if generate_colors then dictUpdate opts "color" (colorName i) else opts
      let dc ← plot_data d xcol ycol label opts2
      let (optsF, dcs) ← _plot_datasets_loop label_key xcol ycol generate_colors rest (i + 1) opts2
      pure (optsF, dc :: dcs)

/-- `Plot._plot_datasets(axs_idx, invert_xaxis, invert_yaxis, opts)`
(src/xcsv/plot/__init__.py:328-353): `generate_colors` is true exactly when
the caller's `opts` has no `color` key; each iteration then writes
`opts['color'] = f'C{i}'` into the caller's dict before drawing. -/
def _plot_datasets (p : FigParams) (opts : List (String × String)) :
    Except PlotError (List (String × String) × List DrawCall) :=
  _plot_datasets_loop p.label_key p.xcol p.ycol (!dictContains opts "color")
    p.datasets 0 opts

/-- `Plot.plot_datasets(datasets, ...)` (src/xcsv/plot/__init__.py:355-417),
reduced to its data-flow: resolve the figure parameters, then plot each
dataset.  Figure/axes setup, the annotation calls and `plt.show()` are canvas
effects with no bearing on the stored state or the errors modelled here.
Returns the stored parameters, the final state of the caller's `opts` dict
and the draw calls issued. -/
def plot_datasets (datasets : List XCSV)
    (xcol ycol : Option String) (xidx : Option Int) (yidx : Int)
    (xlabel ylabel title caption label_key : Option String)
    (opts : List (String × String)) :
    Except PlotError (FigParams × List (String × String) × List DrawCall) := do
  let p ← _store_figure_parameters datasets xcol ycol xidx yidx xlabel ylabel
    title caption label_key
  let r ← _plot_datasets p opts
  pure (p, r.1, r.2)

/-- Whether `c` is a column header label of the dataset's data table. -/
def hasCol (d : XCSV) (c : String) : Bool :=
  (d.data.cols.find? (fun s => s.name = c)).isSome

/-- The values of column `c` of the dataset (empty when the column is
absent). -/
def colValues (d : XCSV) (c : String) : List Int :=
  match d.data.getCol c with
  | .ok s => s.values
  | .error _ => []

/-- Whether the dataset has a column `c` with at least one value. -/
def nonemptyColB (d : XCSV) (c : String) : Bool :=
  match d.data.getCol c with
  | .ok s => !s.values.isEmpty
  | .error _ => false

/-! ## Concrete datasets used to exercise the definitions -/

/-- A small dataset in the shape of the repository's test data: two columns
and ACDD-style header metadata. -/
def dsA : XCSV :=
  ⟨[("id", "1"), ("title", "The title"), ("citation", "The citation")],
   ⟨[⟨"t", [2010, 2011, 2012]⟩, ⟨"d", [1, 5, 3]⟩]⟩⟩

/-- A second dataset with the same columns and different values. -/
def dsB : XCSV :=
  ⟨[("id", "2")], ⟨[⟨"t", [2011, 2012]⟩, ⟨"d", [0, 7]⟩]⟩⟩

theorem exc_bind_ok {ε α β : Type} (x : Except ε α) (f : α → Except ε β) (b : β) :
    (x >>= f) = .ok b ↔ ∃ a, x = .ok a ∧ f a = .ok b := by
  cases x <;> simp [Bind.bind, Except.bind]

theorem exc_bind_of_error {ε α β : Type} {x : Except ε α} (f : α → Except ε β)
    {e : ε} (h : x = .error e) : (x >>= f) = .error e := by
  subst h; rfl

theorem exc_bind_of_ok {ε α β : Type} {x : Except ε α} (f : α → Except ε β)
    {a : α} (h : x = .ok a) : (x >>= f) = f a := by
  subst h; rfl

/-! ## Helper lemmas: folded minima and maxima -/

theorem foldl_min_le_init : ∀ (xs : List Int) (x : Int), xs.foldl min x ≤ x
  | [], _ => le_refl _
  | a :: as, x => le_trans (foldl_min_le_init as (min x a)) (min_le_left x a)

theorem foldl_min_le_mem : ∀ (xs : List Int) (x y : Int), y ∈ xs →
    xs.foldl min x ≤ y := by
  intro xs
  induction xs with
  | nil => intro x y hy; cases hy
  | cons a as ih =>
      intro x y hy
      rcases List.mem_cons.mp hy with h | h
      · subst h
        exact le_trans (foldl_min_le_init as (min x y)) (min_le_right x y)
      · exact ih (min x a) y h

theorem foldl_min_eq_init_or_mem : ∀ (xs : List Int) (x : Int),
    xs.foldl min x = x ∨ xs.foldl min x ∈ xs := by
  intro xs
  induction xs with
  | nil => intro x; exact Or.inl rfl
  | cons a as ih =>
      intro x
      rcases ih (min x a) with h | h
      · rcases min_choice x a with hc | hc
        · exact Or.inl (by rw [List.foldl_cons, h, hc])
        · exact Or.inr (by rw [List.foldl_cons, h, hc]; exact List.mem_cons_self a as)
      · exact Or.inr (List.mem_cons_of_mem a h)

theorem foldl_max_init_le : ∀ (xs : List Int) (x : Int), x ≤ xs.foldl max x
  | [], _ => le_refl _
  | a :: as, x => le_trans (le_max_left x a) (foldl_max_init_le as (max x a))

theorem foldl_max_mem_le : ∀ (xs : List Int) (x y : Int), y ∈ xs →
    y ≤ xs.foldl max x := by
  intro xs
  induction xs with
  | nil => intro x y hy; cases hy
  | cons a as ih =>
      intro x y hy
      rcases List.mem_cons.mp hy with h | h
      · subst h
        exact le_trans (le_max_right x y) (foldl_max_init_le as (max x y))
      · exact ih (max x a) y h

theorem foldl_max_eq_init_or_mem : ∀ (xs : List Int) (x : Int),
    xs.foldl max x = x ∨ xs.foldl max x ∈ xs := by
  intro xs
  induction xs with
  | nil => intro x; exact Or.inl rfl
  | cons a as ih =>
      intro x
      rcases ih (max x a) with h | h
      · rcases max_choice x a with hc | hc
        · exact Or.inl (by rw [List.foldl_cons, h, hc])
        · exact Or.inr (by rw [List.foldl_cons, h, hc]; exact List.mem_cons_self a as)
      · exact Or.inr (List.mem_cons_of_mem a h)

theorem listMin_ok {l : List Int} {m : Int} (h : listMin l = .ok m) :
    m ∈ l ∧ ∀ x ∈ l, m ≤ x := by
  match l with
  | [] => cases h
  | x :: xs =>
      simp only [listMin, Except.ok.injEq] at h
      subst h
      constructor
      · rcases foldl_min_eq_init_or_mem xs x with h | h
        · rw [h]; exact List.mem_cons_self x xs
        · exact List.mem_cons_of_mem x h
      · intro y hy
        rcases List.mem_cons.mp hy with h | h
        · subst h; exact foldl_min_le_init xs y
        · exact foldl_min_le_mem xs x y h

theorem listMax_ok {l : List Int} {m : Int} (h : listMax l = .ok m) :
    m ∈ l ∧ ∀ x ∈ l, x ≤ m := by
  match l with
  | [] => cases h
  | x :: xs =>
      simp only [listMax, Except.ok.injEq] at h
      subst h
      constructor
      · rcases foldl_max_eq_init_or_mem xs x with h | h
        · rw [h]; exact List.mem_cons_self x xs
        · exact List.mem_cons_of_mem x h
      · intro y hy
        rcases List.mem_cons.mp hy with h | h
        · subst h; exact foldl_max_init_le xs y
        · exact foldl_max_mem_le xs x y h

theorem listMin_exists {l : List Int} (h : l ≠ []) : ∃ m, listMin l = .ok m := by
  match l with
  | [] => exact absurd rfl h
  | x :: xs => exact ⟨xs.foldl min x, rfl⟩

theorem listMax_exists {l : List Int} (h : l ≠ []) : ∃ m, listMax l = .ok m := by
  match l with
  | [] => exact absurd rfl h
  | x :: xs => exact ⟨xs.foldl max x, rfl⟩

/-! ## Helper lemmas: columns of a dataset -/

theorem getCol_of_not_hasCol {d : XCSV} {c : String} (h : hasCol d c = false) :
    d.data.getCol c = .error .columnNotFound := by
  unfold hasCol at h
  unfold DataFrame.getCol
  cases hf : d.data.cols.find? (fun s => s.name = c) with
  | none => rfl
  | some s => rw [hf] at h; cases h

theorem minVal_ok {s : Series} {m : Int} (h : s.minVal = .ok m) :
    m ∈ s.values ∧ ∀ v ∈ s.values, m ≤ v := by
  have h2 : listMin s.values = .ok m := by
    unfold Series.minVal at h
    unfold listMin
    cases hv : s.values with
    | nil => rw [hv] at h; cases h
    | cons x xs => rw [hv] at h; exact h
  exact listMin_ok h2

theorem maxVal_ok {s : Series} {m : Int} (h : s.maxVal = .ok m) :
    m ∈ s.values ∧ ∀ v ∈ s.values, v ≤ m := by
  have h2 : listMax s.values = .ok m := by
    unfold Series.maxVal at h
    unfold listMax
    cases hv : s.values with
    | nil => rw [hv] at h; cases h
    | cons x xs => rw [hv] at h; exact h
  exact listMax_ok h2

theorem colMin_ok {d : XCSV} {c : String} {m : Int} (h : colMin d c = .ok m) :
    m ∈ colValues d c ∧ ∀ v ∈ colValues d c, m ≤ v := by
  unfold colMin at h
  cases hg : d.data.getCol c with
  | error e => rw [exc_bind_of_error _ hg] at h; cases h
  | ok s =>
      rw [exc_bind_of_ok _ hg] at h
      have := minVal_ok h
      rwa [show colValues d c = s.values by simp [colValues, hg]]

theorem colMax_ok {d : XCSV} {c : String} {m : Int} (h : colMax d c = .ok m) :
    m ∈ colValues d c ∧ ∀ v ∈ colValues d c, v ≤ m := by
  unfold colMax at h
  cases hg : d.data.getCol c with
  | error e => rw [exc_bind_of_error _ hg] at h; cases h
  | ok s =>
      rw [exc_bind_of_ok _ hg] at h
      have := maxVal_ok h
      rwa [show colValues d c = s.values by simp [colValues, hg]]

theorem colMax_of_not_hasCol {d : XCSV} {c : String} (h : hasCol d c = false) :
    colMax d c = .error .columnNotFound := by
  unfold colMax
  rw [exc_bind_of_error _ (getCol_of_not_hasCol h)]

theorem colMin_exists {d : XCSV} {c : String} (h : nonemptyColB d c = true) :
    ∃ m, colMin d c = .ok m := by
  unfold nonemptyColB at h
  cases hg : d.data.getCol c with
  | error e => rw [hg] at h; cases h
  | ok s =>
      rw [hg] at h
      simp at h
      unfold colMin
      rw [exc_bind_of_ok _ hg]
      unfold Series.minVal
      cases hv : s.values with
      | nil => simp [hv] at h
      | cons x xs => exact ⟨xs.foldl min x, rfl⟩

theorem colMax_exists {d : XCSV} {c : String} (h : nonemptyColB d c = true) :
    ∃ m, colMax d c = .ok m := by
  unfold nonemptyColB at h
  cases hg : d.data.getCol c with
  | error e => rw [hg] at h; cases h
  | ok s =>
      rw [hg] at h
      simp at h
      unfold colMax
      rw [exc_bind_of_ok _ hg]
      unfold Series.maxVal
      cases hv : s.values with
      | nil => simp [hv] at h
      | cons x xs => exact ⟨xs.foldl max x, rfl⟩

theorem nonemptyColB_hasCol {d : XCSV} {c : String}
    (h : nonemptyColB d c = true) : hasCol d c = true := by
  unfold nonemptyColB at h
  unfold hasCol
  unfold DataFrame.getCol at h
  cases hf : d.data.cols.find? (fun s => s.name = c) with
  | none => rw [hf] at h; cases h
  | some s => rfl

/-! ## Helper lemmas: list comprehensions -/

theorem listCompr_cons_ok {α β : Type} {f : α → Except PlotError β} {a : α}
    {as : List α} {l2 : List β} (h : listCompr f (a :: as) = .ok l2) :
    ∃ b bs, f a = .ok b ∧ listCompr f as = .ok bs ∧ l2 = b :: bs := by
  unfold listCompr at h
  rcases (exc_bind_ok _ _ _).mp h with ⟨b, hb, h2⟩
  rcases (exc_bind_ok _ _ _).mp h2 with ⟨bs, hbs, h3⟩
  simp only [pure, Except.pure, Except.ok.injEq] at h3
  exact ⟨b, bs, hb, hbs, h3.symm⟩

theorem listCompr_cons_intro {α β : Type} {f : α → Except PlotError β} {a : α}
    {as : List α} {b : β} {bs : List β} (hb : f a = .ok b)
    (hbs : listCompr f as = .ok bs) : listCompr f (a :: as) = .ok (b :: bs) := by
  unfold listCompr
  rw [exc_bind_of_ok _ hb, exc_bind_of_ok _ hbs]
  rfl

theorem listCompr_ok_length {α β : Type} {f : α → Except PlotError β} :
    ∀ {l : List α} {l2 : List β}, listCompr f l = .ok l2 → l2.length = l.length := by
  intro l
  induction l with
  | nil => intro l2 h; cases h; rfl
  | cons a as ih =>
      intro l2 h
      rcases listCompr_cons_ok h with ⟨b, bs, _, hbs, h3⟩
      subst h3
      simp [ih hbs]

theorem listCompr_mem_right {α β : Type} {f : α → Except PlotError β} :
    ∀ {l : List α} {l2 : List β}, listCompr f l = .ok l2 → ∀ {b : β}, b ∈ l2 →
      ∃ a ∈ l, f a = .ok b := by
  intro l
  induction l with
  | nil => intro l2 h b hb; cases h; cases hb
  | cons a as ih =>
      intro l2 h b hb
      rcases listCompr_cons_ok h with ⟨b2, bs, hb2, hbs, h3⟩
      subst h3
      rcases List.mem_cons.mp hb with h4 | h4
      · subst h4; exact ⟨a, List.mem_cons_self a as, hb2⟩
      · rcases ih hbs h4 with ⟨a2, ha2, hf⟩
        exact ⟨a2, List.mem_cons_of_mem a ha2, hf⟩

theorem listCompr_mem_left {α β : Type} {f : α → Except PlotError β} :
    ∀ {l : List α} {l2 : List β}, listCompr f l = .ok l2 → ∀ {a : α}, a ∈ l →
      ∃ b ∈ l2, f a = .ok b := by
  intro l
  induction l with
  | nil => intro l2 h a ha; cases ha
  | cons a as ih =>
      intro l2 h a2 ha2
      rcases listCompr_cons_ok h with ⟨b, bs, hb, hbs, h3⟩
      subst h3
      rcases List.mem_cons.mp ha2 with h4 | h4
      · subst h4; exact ⟨b, List.mem_cons_self b bs, hb⟩
      · rcases ih hbs h4 with ⟨b2, hb2, hf⟩
        exact ⟨b2, List.mem_cons_of_mem b hb2, hf⟩

theorem listCompr_exists {α β : Type} {f : α → Except PlotError β} :
    ∀ {l : List α}, (∀ a ∈ l, ∃ b, f a = .ok b) →
      ∃ l2, listCompr f l = .ok l2 := by
  intro l
  induction l with
  | nil => intro _; exact ⟨[], rfl⟩
  | cons a as ih =>
      intro h
      rcases h a (List.mem_cons_self a as) with ⟨b, hb⟩
      rcases ih (fun a2 ha2 => h a2 (List.mem_cons_of_mem a ha2)) with ⟨bs, hbs⟩
      exact ⟨b :: bs, listCompr_cons_intro hb hbs⟩

theorem exc_ok_bind {ε α β : Type} (a : α) (f : α → Except ε β) :
    ((Except.ok a : Except ε α) >>= f) = f a := rfl

theorem compr_min_bounds {ds : List XCSV} {c : String} {mins : List Int}
    {b : Int} (hc : listCompr (fun d => colMin d c) ds = .ok mins)
    (hb : listMin mins = .ok b) :
    (∀ d ∈ ds, ∀ v ∈ colValues d c, b ≤ v) ∧ ∃ d ∈ ds, b ∈ colValues d c := by
  rcases listMin_ok hb with ⟨hmem, hle⟩
  constructor
  · intro d hd v hv
    rcases listCompr_mem_left hc hd with ⟨m, hm, hfm⟩
    exact le_trans (hle m hm) ((colMin_ok hfm).2 v hv)
  · rcases listCompr_mem_right hc hmem with ⟨d, hd, hfd⟩
    exact ⟨d, hd, (colMin_ok hfd).1⟩

theorem compr_max_bounds {ds : List XCSV} {c : String} {maxs : List Int}
    {t : Int} (hc : listCompr (fun d => colMax d c) ds = .ok maxs)
    (ht : listMax maxs = .ok t) :
    (∀ d ∈ ds, ∀ v ∈ colValues d c, v ≤ t) ∧ ∃ d ∈ ds, t ∈ colValues d c := by
  rcases listMax_ok ht with ⟨hmem, hle⟩
  constructor
  · intro d hd v hv
    rcases listCompr_mem_left hc hd with ⟨m, hm, hfm⟩
    exact le_trans ((colMax_ok hfm).2 v hv) (hle m hm)
  · rcases listCompr_mem_right hc hmem with ⟨d, hd, hfd⟩
    exact ⟨d, hd, (colMax_ok hfd).1⟩

theorem compr_min_exists {ds : List XCSV} {c : String}
    (h : ∀ d ∈ ds, nonemptyColB d c = true) (hne : ds ≠ []) :
    ∃ mins b, listCompr (fun d => colMin d c) ds = .ok mins ∧
      listMin mins = .ok b := by
  rcases listCompr_exists (fun d hd => colMin_exists (h d hd)) with ⟨mins, hmins⟩
  have hlen := listCompr_ok_length hmins
  have : mins ≠ [] := by
    intro hnil
    apply hne
    rw [hnil] at hlen
    exact List.length_eq_zero.mp hlen.symm
  rcases listMin_exists this with ⟨b, hb⟩
  exact ⟨mins, b, hmins, hb⟩

theorem compr_max_exists {ds : List XCSV} {c : String}
    (h : ∀ d ∈ ds, nonemptyColB d c = true) (hne : ds ≠ []) :
    ∃ maxs t, listCompr (fun d => colMax d c) ds = .ok maxs ∧
      listMax maxs = .ok t := by
  rcases listCompr_exists (fun d hd => colMax_exists (h d hd)) with ⟨maxs, hmaxs⟩
  have hlen := listCompr_ok_length hmaxs
  have : maxs ≠ [] := by
    intro hnil
    apply hne
    rw [hnil] at hlen
    exact List.length_eq_zero.mp hlen.symm
  rcases listMax_exists this with ⟨t, ht⟩
  exact ⟨maxs, t, hmaxs, ht⟩

theorem extent_none_eq {ds : List XCSV} {ycol : String} {r b t : Int}
    {mins maxs : List Int}
    (hr : listMax (ds.map (fun d => (d.data.nrows : Int) - 1)) = .ok r)
    (hmins : listCompr (fun d => colMin d ycol) ds = .ok mins)
    (hb : listMin mins = .ok b)
    (hmaxs : listCompr (fun d => colMax d ycol) ds = .ok maxs)
    (ht : listMax maxs = .ok t) :
    get_plot_data_extent ds none ycol = .ok [0, r, b, t] := by
  unfold get_plot_data_extent
  rw [hr, exc_ok_bind, hmins, exc_ok_bind, hb, exc_ok_bind, hmaxs, exc_ok_bind,
    ht, exc_ok_bind]
  rfl

theorem extent_some_eq {ds : List XCSV} {xc ycol : String} {l r b t : Int}
    {xmins xmaxs mins maxs : List Int}
    (hxmins : listCompr (fun d => colMin d xc) ds = .ok xmins)
    (hl : listMin xmins = .ok l)
    (hxmaxs : listCompr (fun d => colMax d xc) ds = .ok xmaxs)
    (hr : listMax xmaxs = .ok r)
    (hmins : listCompr (fun d => colMin d ycol) ds = .ok mins)
    (hb : listMin mins = .ok b)
    (hmaxs : listCompr (fun d => colMax d ycol) ds = .ok maxs)
    (ht : listMax maxs = .ok t) :
    get_plot_data_extent ds (some xc) ycol = .ok [l, r, b, t] := by
  unfold get_plot_data_extent
  dsimp only
  rw [hxmins, exc_ok_bind, hl, exc_ok_bind, hxmaxs, exc_ok_bind, hr, exc_ok_bind,
    hmins, exc_ok_bind, hb, exc_ok_bind, hmaxs, exc_ok_bind, ht, exc_ok_bind]
  rfl

/-- C1: for a non-empty dataset list whose y-column is present (and non-empty)
in every dataset, `get_plot_data_extent` returns exactly
`[0, max over datasets of (table length - 1), min of y values, max of y
values]` when the x-column is omitted, and
`[min of x values, max of x values, min of y values, max of y values]` when an
x-column is given, each bound computed independently per axis across all
datasets (each bound dominates every candidate and is attained by one). -/
theorem get_plot_data_extent_is_per_axis_extrema
    (datasets : List XCSV) (d0 : XCSV) (rest : List XCSV) (ycol : String)
    (hds : datasets = d0 :: rest)
    (hy : ∀ d ∈ datasets, nonemptyColB d ycol = true) :
    (∃ r b t, get_plot_data_extent datasets none ycol = .ok [0, r, b, t] ∧
      (∀ d ∈ datasets, (d.data.nrows : Int) - 1 ≤ r) ∧
      (∃ d ∈ datasets, r = (d.data.nrows : Int) - 1) ∧
      (∀ d ∈ datasets, ∀ v ∈ colValues d ycol, b ≤ v ∧ v ≤ t) ∧
      (∃ d ∈ datasets, b ∈ colValues d ycol) ∧
      (∃ d ∈ datasets, t ∈ colValues d ycol)) ∧
    (∀ xc : String, (∀ d ∈ datasets, nonemptyColB d xc = true) →
      ∃ l r b t, get_plot_data_extent datasets (some xc) ycol = .ok [l, r, b, t] ∧
        (∀ d ∈ datasets, ∀ v ∈ colValues d xc, l ≤ v ∧ v ≤ r) ∧
        (∃ d ∈ datasets, l ∈ colValues d xc) ∧
        (∃ d ∈ datasets, r ∈ colValues d xc) ∧
        (∀ d ∈ datasets, ∀ v ∈ colValues d ycol, b ≤ v ∧ v ≤ t) ∧
        (∃ d ∈ datasets, b ∈ colValues d ycol) ∧
        (∃ d ∈ datasets, t ∈ colValues d ycol)) := by
  have hne : datasets ≠ [] := by rw [hds]; simp
  rcases compr_min_exists hy hne with ⟨mins, b, hmins, hb⟩
  rcases compr_max_exists hy hne with ⟨maxs, t, hmaxs, ht⟩
  rcases compr_min_bounds hmins hb with ⟨hble, hbmem⟩
  rcases compr_max_bounds hmaxs ht with ⟨htle, htmem⟩
  constructor
  · have hmapne : datasets.map (fun d => (d.data.nrows : Int) - 1) ≠ [] := by
      intro h
      exact hne (List.map_eq_nil_iff.mp h)
    rcases listMax_exists hmapne with ⟨r, hr⟩
    rcases listMax_ok hr with ⟨hrmem, hrle⟩
    refine ⟨r, b, t, extent_none_eq hr hmins hb hmaxs ht, ?_, ?_, ?_, hbmem, htmem⟩
    · intro d hd
      exact hrle _ (List.mem_map_of_mem _ hd)
    · rcases List.mem_map.mp hrmem with ⟨d, hd, heq⟩
      exact ⟨d, hd, heq.symm⟩
    · intro d hd v hv
      exact ⟨hble d hd v hv, htle d hd v hv⟩
  · intro xc hx
    rcases compr_min_exists hx hne with ⟨xmins, l, hxmins, hl⟩
    rcases compr_max_exists hx hne with ⟨xmaxs, r, hxmaxs, hr⟩
    rcases compr_min_bounds hxmins hl with ⟨hlle, hlmem⟩
    rcases compr_max_bounds hxmaxs hr with ⟨hrle, hrmem⟩
    refine ⟨l, r, b, t,
      extent_some_eq hxmins hl hxmaxs hr hmins hb hmaxs ht, ?_, hlmem, hrmem,
      ?_, hbmem, htmem⟩
    · intro d hd v hv
      exact ⟨hlle d hd v hv, hrle d hd v hv⟩
    · intro d hd v hv
      exact ⟨hble d hd v hv, htle d hd v hv⟩

theorem extent_none_ok_elim {ds : List XCSV} {ycol : String} {e : List Int}
    (h : get_plot_data_extent ds none ycol = .ok e) :
    ∃ r mins b maxs t,
      listMax (ds.map (fun d => (d.data.nrows : Int) - 1)) = .ok r ∧
      listCompr (fun d => colMin d ycol) ds = .ok mins ∧
      listMin mins = .ok b ∧
      listCompr (fun d => colMax d ycol) ds = .ok maxs ∧
      listMax maxs = .ok t ∧
      e = [0, r, b, t] := by
  unfold get_plot_data_extent at h
  dsimp only at h
  rcases (exc_bind_ok _ _ _).mp h with ⟨r, hr, h2⟩
  rcases (exc_bind_ok _ _ _).mp h2 with ⟨mins, hmins, h3⟩
  rcases (exc_bind_ok _ _ _).mp h3 with ⟨b, hb, h4⟩
  rcases (exc_bind_ok _ _ _).mp h4 with ⟨maxs, hmaxs, h5⟩
  rcases (exc_bind_ok _ _ _).mp h5 with ⟨t, ht, h6⟩
  simp only [pure, Except.pure, Except.ok.injEq] at h6
  exact ⟨r, mins, b, maxs, t, hr, hmins, hb, hmaxs, ht, h6.symm⟩

theorem extent_some_ok_elim {ds : List XCSV} {xc ycol : String} {e : List Int}
    (h : get_plot_data_extent ds (some xc) ycol = .ok e) :
    ∃ xmins l xmaxs r mins b maxs t,
      listCompr (fun d => colMin d xc) ds = .ok xmins ∧
      listMin xmins = .ok l ∧
      listCompr (fun d => colMax d xc) ds = .ok xmaxs ∧
      listMax xmaxs = .ok r ∧
      listCompr (fun d => colMin d ycol) ds = .ok mins ∧
      listMin mins = .ok b ∧
      listCompr (fun d => colMax d ycol) ds = .ok maxs ∧
      listMax maxs = .ok t ∧
      e = [l, r, b, t] := by
  unfold get_plot_data_extent at h
  dsimp only at h
  rcases (exc_bind_ok _ _ _).mp h with ⟨xmins, hxmins, h2⟩
  rcases (exc_bind_ok _ _ _).mp h2 with ⟨l, hl, h3⟩
  rcases (exc_bind_ok _ _ _).mp h3 with ⟨xmaxs, hxmaxs, h4⟩
  rcases (exc_bind_ok _ _ _).mp h4 with ⟨r, hr, h5⟩
  rcases (exc_bind_ok _ _ _).mp h5 with ⟨mins, hmins, h6⟩
  rcases (exc_bind_ok _ _ _).mp h6 with ⟨b, hb, h7⟩
  rcases (exc_bind_ok _ _ _).mp h7 with ⟨maxs, hmaxs, h8⟩
  rcases (exc_bind_ok _ _ _).mp h8 with ⟨t, ht, h9⟩
  simp only [pure, Except.pure, Except.ok.injEq] at h9
  exact ⟨xmins, l, xmaxs, r, mins, b, maxs, t, hxmins, hl, hxmaxs, hr, hmins,
    hb, hmaxs, ht, h9.symm⟩

theorem getCol_mem {df : DataFrame} {label : String} {s : Series}
    (h : df.getCol label = .ok s) : s ∈ df.cols := by
  unfold DataFrame.getCol at h
  cases hf : df.cols.find? (fun s => s.name = label) with
  | none => rw [hf] at h; cases h
  | some s2 =>
      rw [hf] at h
      cases h
      exact List.mem_of_find?_eq_some hf

theorem mem_colValues {d : XCSV} {c : String} {b : Int} (h : b ∈ colValues d c) :
    ∃ s, d.data.getCol c = .ok s ∧ b ∈ s.values := by
  unfold colValues at h
  cases hg : d.data.getCol c with
  | error e => rw [hg] at h; cases h
  | ok s => rw [hg] at h; exact ⟨s, rfl, h⟩

/-- C9: for every non-empty dataset list (with the data model's
equal-column-length guarantee) on which `get_plot_data_extent` succeeds, the
returned extent `[left, right, bottom, top]` satisfies `left ≤ right` and
`bottom ≤ top`. -/
theorem extent_ordered
    (datasets : List XCSV) (xcol : Option String) (ycol : String) (e : List Int)
    (hne : datasets ≠ [])
    (hwf : ∀ d ∈ datasets, ∀ s ∈ d.data.cols, s.values.length = d.data.nrows)
    (hok : get_plot_data_extent datasets xcol ycol = .ok e) :
    ∃ l r b t, e = [l, r, b, t] ∧ l ≤ r ∧ b ≤ t := by
  cases xcol with
  | none =>
      rcases extent_none_ok_elim hok with ⟨r, mins, b, maxs, t, hr, hmins, hb, hmaxs, ht, he⟩
      rcases compr_min_bounds hmins hb with ⟨hble, hbmem⟩
      rcases compr_max_bounds hmaxs ht with ⟨htle, htmem⟩
      refine ⟨0, r, b, t, he, ?_, ?_⟩
      · rcases hbmem with ⟨d, hd, hbv⟩
        rcases mem_colValues hbv with ⟨s, hgs, hbs⟩
        have hsmem := getCol_mem hgs
        have hlen := hwf d hd s hsmem
        have hpos : 1 ≤ s.values.length := by
          cases hv : s.values with
          | nil => rw [hv] at hbs; cases hbs
          | cons x xs => simp [hv]
        have h0 : (0 : Int) ≤ (d.data.nrows : Int) - 1 := by
          rw [← hlen]
          omega
        have hrge := (listMax_ok hr).2 _
          (List.mem_map_of_mem (fun d => (d.data.nrows : Int) - 1) hd)
        exact le_trans h0 hrge
      · rcases hbmem with ⟨d, hd, hbv⟩
        exact htle d hd b hbv
  | some xc =>
      rcases extent_some_ok_elim hok with
        ⟨xmins, l, xmaxs, r, mins, b, maxs, t, hxmins, hl, hxmaxs, hr, hmins, hb, hmaxs, ht, he⟩
      rcases compr_min_bounds hxmins hl with ⟨hlle, hlmem⟩
      rcases compr_max_bounds hxmaxs hr with ⟨hrle, hrmem⟩
      rcases compr_min_bounds hmins hb with ⟨hble, hbmem⟩
      rcases compr_max_bounds hmaxs ht with ⟨htle, htmem⟩
      refine ⟨l, r, b, t, he, ?_, ?_⟩
      · rcases hlmem with ⟨d, hd, hlv⟩
        exact hrle d hd l hlv
      · rcases hbmem with ⟨d, hd, hbv⟩
        exact htle d hd b hbv

theorem store_cons_eq (d0 : XCSV) (rest : List XCSV)
    (xc yc : Option String) (xidx : Option Int) (yidx : Int)
    (xl yl t c lk : Option String) :
    _store_figure_parameters (d0 :: rest) xc yc xidx yidx xl yl t c lk =
    (do
      let xcol2 ←
        (if truthy xc then pure xc
         else
           match xidx with
           | some i => do
               let s ← d0.data.ilocCol i
               pure (some s.name)
           | none => pure xc)
      let ycol2 ←
        (if truthy yc then pure (yc.getD "")
         else do
           let s ← d0.data.ilocCol yidx
           pure s.name)
      pure { datasets := d0 :: rest, xcol := xcol2, ycol := ycol2,
             xlabel := if truthy xl then xl else xcol2,
             ylabel := if truthy yl then yl.getD "" else ycol2,
             title := if truthy t then t.getD ""
                      else get_metadata_item_value d0 "title",
             caption := if truthy c then c.getD ""
                        else get_metadata_item_value d0 "citation",
             label_key := if truthy lk then lk.getD "" else "id" } :
      Except PlotError FigParams) := by
  unfold _store_figure_parameters firstDataset
  cases truthy t <;> cases truthy c <;> cases truthy lk <;>
    cases truthy xc <;> cases truthy yc <;> cases xidx <;>
    simp [exc_ok_bind, pure, Except.pure, bind_assoc]

theorem ilocCol_out_of_range {df : DataFrame} {idx : Int}
    (h : idx < -(df.cols.length : Int) ∨ (df.cols.length : Int) ≤ idx) :
    df.ilocCol idx = .error .columnIndexOutOfRange := by
  unfold DataFrame.ilocCol
  rcases h with h | h
  · have hneg : idx < 0 := by omega
    simp only [hneg, if_true]
    rw [if_neg (show ¬(0 ≤ (df.cols.length : Int) + idx ∧
      (df.cols.length : Int) + idx < (df.cols.length : Int)) by omega)]
  · have hnneg : ¬(idx < 0) := by omega
    simp only [hnneg, if_false]
    rw [if_neg (show ¬(0 ≤ idx ∧ idx < (df.cols.length : Int)) by omega)]

theorem ilocCol_nonneg {df : DataFrame} {idx : Int} {s : Series}
    (h0 : 0 ≤ idx) (hs : df.cols.get? idx.toNat = some s) :
    df.ilocCol idx = .ok s := by
  unfold DataFrame.ilocCol
  have hlt : idx.toNat < df.cols.length := List.get?_eq_some.mp hs |>.1
  have hnneg : ¬(idx < 0) := by omega
  simp only [hnneg, if_false]
  have hcond : 0 ≤ idx ∧ idx < (df.cols.length : Int) := by omega
  simp only [hcond, and_self, if_true, hs]

theorem ilocCol_neg {df : DataFrame} {idx : Int} {s : Series}
    (hneg : idx < 0) (hge : -(df.cols.length : Int) ≤ idx)
    (hs : df.cols.get? ((df.cols.length : Int) + idx).toNat = some s) :
    df.ilocCol idx = .ok s := by
  unfold DataFrame.ilocCol
  simp only [hneg, if_true]
  have hcond : 0 ≤ (df.cols.length : Int) + idx ∧
      (df.cols.length : Int) + idx < (df.cols.length : Int) := by omega
  simp only [hcond, and_self, if_true, hs]

theorem store_cons_ok_elim {d0 : XCSV} {rest : List XCSV}
    {xc yc : Option String} {xidx : Option Int} {yidx : Int}
    {xl yl t c lk : Option String} {p : FigParams}
    (h : _store_figure_parameters (d0 :: rest) xc yc xidx yidx xl yl t c lk = .ok p) :
    ∃ xcol2 ycol2,
      (if truthy xc then pure xc
       else
         match xidx with
         | some i => do
             let s ← d0.data.ilocCol i
             pure (some s.name)
         | none => pure xc) = Except.ok xcol2 ∧
      (if truthy yc then pure (yc.getD "")
       else do
         let s ← d0.data.ilocCol yidx
         pure s.name) = Except.ok ycol2 ∧
      p = { datasets := d0 :: rest, xcol := xcol2, ycol := ycol2,
            xlabel := if truthy xl then xl else xcol2,
            ylabel := if truthy yl then yl.getD "" else ycol2,
            title := if truthy t then t.getD ""
                     else get_metadata_item_value d0 "title",
            caption := if truthy c then c.getD ""
                       else get_metadata_item_value d0 "citation",
            label_key := if truthy lk then lk.getD "" else "id" } := by
  rw [store_cons_eq] at h
  rcases (exc_bind_ok _ _ _).mp h with ⟨xcol2, hx, h2⟩
  rcases (exc_bind_ok _ _ _).mp h2 with ⟨ycol2, hy, h3⟩
  simp only [pure, Except.pure, Except.ok.injEq] at h3
  exact ⟨xcol2, ycol2, hx, hy, h3.symm⟩

theorem store_default_ycol_eq (d0 : XCSV) (rest : List XCSV) (yidx : Int) :
    _store_figure_parameters (d0 :: rest) none none none yidx none none none none none =
    (d0.data.ilocCol yidx).map (fun s =>
      { datasets := d0 :: rest, xcol := none, ycol := s.name, xlabel := none,
        ylabel := s.name, title := get_metadata_item_value d0 "title",
        caption := get_metadata_item_value d0 "citation", label_key := "id" }) := by
  rw [store_cons_eq]
  cases hy : d0.data.ilocCol yidx <;>
    simp [truthy, exc_ok_bind, pure, Except.pure, Except.map, Bind.bind,
      Except.bind, hy]

theorem store_xidx_eq (d0 : XCSV) (rest : List XCSV) (i : Int) (ys : String)
    (hys : ys ≠ "") :
    _store_figure_parameters (d0 :: rest) none (some ys) (some i) 0 none none none none none =
    (d0.data.ilocCol i).map (fun s =>
      { datasets := d0 :: rest, xcol := some s.name, ycol := ys,
        xlabel := some s.name, ylabel := ys,
        title := get_metadata_item_value d0 "title",
        caption := get_metadata_item_value d0 "citation", label_key := "id" }) := by
  rw [store_cons_eq]
  cases hx : d0.data.ilocCol i <;>
    simp [truthy, hys, exc_ok_bind, pure, Except.pure, Except.map, Bind.bind,
      Except.bind, hx]

/-- C4 (amended): a `yidx` (or `xidx`) outside `[-N, N)` of the first
dataset's column count `N` makes resolution fail with
`ColumnIndexOutOfRangeError`; an index inside `[0, N)` resolves the column
identity to the label at that position without error (negative indices in
`[-N, 0)` are accepted by pandas positional indexing, see C10). -/
theorem column_index_range (d0 : XCSV) (rest : List XCSV) (yidx : Int) :
    ((yidx < -(d0.data.cols.length : Int) ∨ (d0.data.cols.length : Int) ≤ yidx) →
      _store_figure_parameters (d0 :: rest) none none none yidx none none none
        none none = .error .columnIndexOutOfRange) ∧
    (∀ s : Series, 0 ≤ yidx → d0.data.cols.get? yidx.toNat = some s →
      ∃ p, _store_figure_parameters (d0 :: rest) none none none yidx none none
        none none none = .ok p ∧ p.ycol = s.name) ∧
    (∀ i : Int, ∀ ys : String, ys ≠ "" →
      ((i < -(d0.data.cols.length : Int) ∨ (d0.data.cols.length : Int) ≤ i) →
        _store_figure_parameters (d0 :: rest) none (some ys) (some i) 0 none none
          none none none = .error .columnIndexOutOfRange) ∧
      (∀ s : Series, 0 ≤ i → d0.data.cols.get? i.toNat = some s →
        ∃ p, _store_figure_parameters (d0 :: rest) none (some ys) (some i) 0 none
          none none none none = .ok p ∧ p.xcol = some s.name)) := by
  refine ⟨?_, ?_, ?_⟩
  · intro h
    rw [store_default_ycol_eq, ilocCol_out_of_range h]
    rfl
  · intro s h0 hs
    rw [store_default_ycol_eq, ilocCol_nonneg h0 hs]
    exact ⟨_, rfl, rfl⟩
  · intro i ys hys
    constructor
    · intro h
      rw [store_xidx_eq d0 rest i ys hys, ilocCol_out_of_range h]
      rfl
    · intro s h0 hs
      rw [store_xidx_eq d0 rest i ys hys, ilocCol_nonneg h0 hs]
      exact ⟨_, rfl, rfl⟩

/-- C10: a negative `yidx` — or `xidx` — in `[-N, 0)` is accepted without
error and resolves the column identity to the label at position `N + idx`,
counting from the end (pandas `iloc` semantics). -/
theorem negative_index_resolves (d0 : XCSV) (rest : List XCSV) (idx : Int)
    (s : Series) (hneg : idx < 0) (hge : -(d0.data.cols.length : Int) ≤ idx)
    (hs : d0.data.cols.get? ((d0.data.cols.length : Int) + idx).toNat = some s) :
    (∃ p, _store_figure_parameters (d0 :: rest) none none none idx none none
      none none none = .ok p ∧ p.ycol = s.name) ∧
    (∀ ys : String, ys ≠ "" →
      ∃ p, _store_figure_parameters (d0 :: rest) none (some ys) (some idx) 0
        none none none none none = .ok p ∧ p.xcol = some s.name) := by
  constructor
  · rw [store_default_ycol_eq, ilocCol_neg hneg hge hs]
    exact ⟨_, rfl, rfl⟩
  · intro ys hys
    rw [store_xidx_eq d0 rest idx ys hys, ilocCol_neg hneg hge hs]
    exact ⟨_, rfl, rfl⟩

/-- C8: when the caller supplies both a non-empty `xcol` and an `xidx`,
`xcol` takes precedence: the resolution result is identical to the call
without `xidx` (so `xidx` is ignored and supplying both raises no error),
and the resolved x-column is `xcol`. -/
theorem xcol_overrides_xidx (datasets : List XCSV) (s : String) (hs : s ≠ "")
    (yc : Option String) (i : Int) (yidx : Int)
    (xl yl t c lk : Option String) :
    (_store_figure_parameters datasets (some s) yc (some i) yidx xl yl t c lk =
      _store_figure_parameters datasets (some s) yc none yidx xl yl t c lk) ∧
    (∀ p, _store_figure_parameters datasets (some s) yc (some i) yidx xl yl t c
      lk = .ok p → p.xcol = some s) := by
  have hts : truthy (some s) = true := by simp [truthy, hs]
  constructor
  · unfold _store_figure_parameters
    simp [hts]
  · intro p h
    cases datasets with
    | nil =>
        unfold _store_figure_parameters firstDataset at h
        cases ht2 : truthy t <;> cases hc2 : truthy c <;>
          cases hy2 : truthy yc <;>
          simp [ht2, hc2, hy2, hts, pure, Except.pure, Bind.bind,
            Except.bind] at h <;>
          simp [← h]
    | cons d0 rest =>
        rcases store_cons_ok_elim h with ⟨xcol2, ycol2, hx, hy, hp⟩
        simp only [hts, if_true, pure, Except.pure, Except.ok.injEq] at hx
        rw [hp, ← hx]

/-- C2 (amended): resolution uses a caller-supplied title / caption /
label_key only when it is a non-empty string; when the caller supplies `None`
or an explicit empty string (both falsy under `if not ...:`), title and
caption fall back to the `title` / `citation` metadata of `datasets[0]`
(which is the empty string when the key is absent) and label_key falls back
to the fixed default `"id"`. -/
theorem annotation_fallbacks (d0 : XCSV) (rest : List XCSV)
    (xc yc : Option String) (xidx : Option Int) (yidx : Int)
    (xl yl t c lk : Option String) (p : FigParams)
    (h : _store_figure_parameters (d0 :: rest) xc yc xidx yidx xl yl t c lk = .ok p) :
    p.title = (if truthy t then t.getD "" else get_metadata_item_value d0 "title") ∧
    p.caption = (if truthy c then c.getD ""
                 else get_metadata_item_value d0 "citation") ∧
    p.label_key = (if truthy lk then lk.getD "" else "id") := by
  rcases store_cons_ok_elim h with ⟨x2, y2, hx, hy, hp⟩
  rw [hp]
  exact ⟨rfl, rfl, rfl⟩

/-- C7 (amended): when the caller supplies no xlabel (resp. ylabel) or an
explicit empty string (falsy under `if not ...:`), the resolved x-axis label
equals the resolved x-column identity — which is `None`, not the empty
string, when the x-column is absent — and the resolved y-axis label equals
the resolved y-column identity; a caller-supplied non-empty label text is
used verbatim. -/
theorem axis_label_fallbacks (d0 : XCSV) (rest : List XCSV)
    (xc yc : Option String) (xidx : Option Int) (yidx : Int)
    (xl yl t c lk : Option String) (p : FigParams)
    (h : _store_figure_parameters (d0 :: rest) xc yc xidx yidx xl yl t c lk = .ok p) :
    p.xlabel = (if truthy xl then xl else p.xcol) ∧
    p.ylabel = (if truthy yl then yl.getD "" else p.ycol) := by
  rcases store_cons_ok_elim h with ⟨x2, y2, hx, hy, hp⟩
  rw [hp]
  exact ⟨rfl, rfl⟩

/-- C6 (amended): `get_plot_data_extent` on an empty dataset list always
fails with `EmptyInputError`; `_store_figure_parameters` on an empty list
fails with `EmptyInputError` exactly when some fallback needs `datasets[0]`
(title, caption or ycol falsy, or xcol falsy with an xidx supplied) — with
all those caller-supplied, the empty list is accepted. -/
theorem empty_datasets_errors :
    (∀ (xcol : Option String) (ycol : String),
      get_plot_data_extent [] xcol ycol = .error .emptyInput) ∧
    (∀ (xc yc : Option String) (xidx : Option Int) (yidx : Int)
      (xl yl t c lk : Option String),
      (truthy t = false ∨ truthy c = false ∨ truthy yc = false ∨
        (truthy xc = false ∧ xidx ≠ none)) →
      _store_figure_parameters [] xc yc xidx yidx xl yl t c lk =
        .error .emptyInput) := by
  constructor
  · intro xcol ycol
    cases xcol <;> rfl
  · intro xc yc xidx yidx xl yl t c lk h
    unfold _store_figure_parameters firstDataset
    cases ht : truthy t with
    | false => simp [ht, pure, Except.pure, Bind.bind, Except.bind]
    | true =>
        cases hc : truthy c with
        | false => simp [ht, hc, pure, Except.pure, Bind.bind, Except.bind]
        | true =>
            cases hyc : truthy yc with
            | false =>
                cases hxc : truthy xc <;> cases xidx <;>
                  simp [ht, hc, hyc, hxc, pure, Except.pure, Bind.bind,
                    Except.bind]
            | true =>
                rcases h with h | h | h | ⟨h1, h2⟩
                · rw [ht] at h; cases h
                · rw [hc] at h; cases h
                · rw [hyc] at h; cases h
                · cases hxi : xidx with
                  | none => exact absurd hxi h2
                  | some i =>
                      simp [ht, hc, hyc, h1, pure, Except.pure, Bind.bind,
                        Except.bind]

theorem dictContains_dictUpdate (opts : List (String × String)) (k v : String) :
    dictContains (dictUpdate opts k v) k = true := by
  induction opts with
  | nil => simp [dictUpdate, dictContains]
  | cons kv rest ih =>
      obtain ⟨k2, v2⟩ := kv
      by_cases hk : k2 = k
      · simp [dictUpdate, dictContains, hk]
      · simp only [dictUpdate, hk, if_false]
        simp only [dictContains, List.any_cons] at ih ⊢
        simp [ih, hk]

theorem loop_no_gen_opts (lk : String) (xcol : Option String) (yc : String) :
    ∀ (ds : List XCSV) (i : Nat) (opts : List (String × String))
      (r : List (String × String) × List DrawCall),
      _plot_datasets_loop lk xcol yc false ds i opts = .ok r → r.1 = opts := by
  intro ds
  induction ds with
  | nil =>
      intro i opts r h
      unfold _plot_datasets_loop at h
      cases h
      rfl
  | cons d rest ih =>
      intro i opts r h
      unfold _plot_datasets_loop at h
      dsimp only at h
      rcases (exc_bind_ok _ _ _).mp h with ⟨dc, hdc, h2⟩
      rcases (exc_bind_ok _ _ _).mp h2 with ⟨⟨optsF, dcs⟩, hloop, h3⟩
      simp only [pure, Except.pure, Except.ok.injEq] at h3
      rw [← h3]
      exact ih (i + 1) opts (optsF, dcs) hloop

theorem loop_gen_contains (lk : String) (xcol : Option String) (yc : String) :
    ∀ (ds : List XCSV) (i : Nat) (opts : List (String × String))
      (r : List (String × String) × List DrawCall),
      dictContains opts "color" = true →
      _plot_datasets_loop lk xcol yc true ds i opts = .ok r →
      dictContains r.1 "color" = true := by
  intro ds
  induction ds with
  | nil =>
      intro i opts r hc h
      unfold _plot_datasets_loop at h
      cases h
      exact hc
  | cons d rest ih =>
      intro i opts r hc h
      unfold _plot_datasets_loop at h
      dsimp only at h
      rcases (exc_bind_ok _ _ _).mp h with ⟨dc, hdc, h2⟩
      rcases (exc_bind_ok _ _ _).mp h2 with ⟨⟨optsF, dcs⟩, hloop, h3⟩
      simp only [pure, Except.pure, Except.ok.injEq] at h3
      rw [← h3]
      exact ih (i + 1) (dictUpdate opts "color" (colorName i)) (optsF, dcs)
        (dictContains_dictUpdate opts "color" (colorName i)) hloop

theorem loop_gen_adds_color (lk : String) (xcol : Option String) (yc : String)
    (d : XCSV) (ds : List XCSV) (i : Nat) (opts : List (String × String))
    (r : List (String × String) × List DrawCall)
    (h : _plot_datasets_loop lk xcol yc true (d :: ds) i opts = .ok r) :
    dictContains r.1 "color" = true := by
  unfold _plot_datasets_loop at h
  dsimp only at h
  rcases (exc_bind_ok _ _ _).mp h with ⟨dc, hdc, h2⟩
  rcases (exc_bind_ok _ _ _).mp h2 with ⟨⟨optsF, dcs⟩, hloop, h3⟩
  simp only [pure, Except.pure, Except.ok.injEq] at h3
  rw [← h3]
  exact loop_gen_contains lk xcol yc ds (i + 1)
    (dictUpdate opts "color" (colorName i)) (optsF, dcs)
    (dictContains_dictUpdate opts "color" (colorName i)) hloop

theorem store_datasets_echo (datasets : List XCSV)
    (xc yc : Option String) (xidx : Option Int) (yidx : Int)
    (xl yl t c lk : Option String) (p : FigParams)
    (h : _store_figure_parameters datasets xc yc xidx yidx xl yl t c lk = .ok p) :
    p.datasets = datasets := by
  cases datasets with
  | cons d0 rest =>
      rcases store_cons_ok_elim h with ⟨x2, y2, hx, hy, hp⟩
      rw [hp]
  | nil =>
      unfold _store_figure_parameters firstDataset at h
      cases ht : truthy t <;> cases hc : truthy c <;> cases hyc : truthy yc <;>
        cases hxc : truthy xc <;> cases xidx <;>
        simp [ht, hc, hyc, hxc, pure, Except.pure, Bind.bind, Except.bind] at h <;>
        simp [← h]

/-- C3 (amended): a successful `plot_datasets` call stores the input dataset
list unchanged (read-only echo) and leaves the caller's `opts` record
unchanged when the caller fixed a `color`; but when the caller did not set a
`color` and at least one dataset is plotted, the call writes a `color` entry
into the caller's `opts` record (Python mutates the dict in place). -/
theorem plot_datasets_opts_effect (datasets : List XCSV)
    (xc yc : Option String) (xidx : Option Int) (yidx : Int)
    (xl yl t c lk : Option String) (opts : List (String × String))
    (p : FigParams) (optsF : List (String × String)) (dcs : List DrawCall)
    (h : plot_datasets datasets xc yc xidx yidx xl yl t c lk opts =
      .ok (p, optsF, dcs)) :
    p.datasets = datasets ∧
    (dictContains opts "color" = true → optsF = opts) ∧
    (dictContains opts "color" = false → datasets ≠ [] →
      dictContains optsF "color" = true) := by
  unfold plot_datasets at h
  rcases (exc_bind_ok _ _ _).mp h with ⟨p2, hstore, h2⟩
  rcases (exc_bind_ok _ _ _).mp h2 with ⟨r2, hplot, h3⟩
  simp only [pure, Except.pure, Except.ok.injEq, Prod.mk.injEq] at h3
  obtain ⟨hp2, hr1, hr2⟩ := h3
  rw [hp2] at hstore hplot
  have hecho := store_datasets_echo datasets xc yc xidx yidx xl yl t c lk p hstore
  unfold _plot_datasets at hplot
  refine ⟨hecho, ?_, ?_⟩
  · intro hcol
    rw [hcol] at hplot
    simp only [Bool.not_true] at hplot
    rw [← hr1]
    exact loop_no_gen_opts p.label_key p.xcol p.ycol p.datasets 0 opts r2 hplot
  · intro hcol hne
    rw [hcol] at hplot
    simp only [Bool.not_false] at hplot
    rw [hecho] at hplot
    cases hds : datasets with
    | nil => exact absurd hds hne
    | cons d0 rest =>
        rw [hds] at hplot
        rw [← hr1]
        exact loop_gen_adds_color p.label_key p.xcol p.ycol d0 rest 0 opts r2 hplot

/-- C1 witness: the theorem applied to two concrete datasets sharing columns
`t` and `d`. -/
theorem get_plot_data_extent_is_per_axis_extrema_witness :
    ([dsA, dsB] = dsA :: [dsB] ∧
      (∀ d ∈ [dsA, dsB], nonemptyColB d "d" = true)) ∧
    ((∃ r b t, get_plot_data_extent [dsA, dsB] none "d" = .ok [0, r, b, t] ∧
      (∀ d ∈ [dsA, dsB], (d.data.nrows : Int) - 1 ≤ r) ∧
      (∃ d ∈ [dsA, dsB], r = (d.data.nrows : Int) - 1) ∧
      (∀ d ∈ [dsA, dsB], ∀ v ∈ colValues d "d", b ≤ v ∧ v ≤ t) ∧
      (∃ d ∈ [dsA, dsB], b ∈ colValues d "d") ∧
      (∃ d ∈ [dsA, dsB], t ∈ colValues d "d")) ∧
    (∀ xc : String, (∀ d ∈ [dsA, dsB], nonemptyColB d xc = true) →
      ∃ l r b t,
        get_plot_data_extent [dsA, dsB] (some xc) "d" = .ok [l, r, b, t] ∧
        (∀ d ∈ [dsA, dsB], ∀ v ∈ colValues d xc, l ≤ v ∧ v ≤ r) ∧
        (∃ d ∈ [dsA, dsB], l ∈ colValues d xc) ∧
        (∃ d ∈ [dsA, dsB], r ∈ colValues d xc) ∧
        (∀ d ∈ [dsA, dsB], ∀ v ∈ colValues d "d", b ≤ v ∧ v ≤ t) ∧
        (∃ d ∈ [dsA, dsB], b ∈ colValues d "d") ∧
        (∃ d ∈ [dsA, dsB], t ∈ colValues d "d"))) :=
  ⟨⟨rfl, by decide⟩,
   get_plot_data_extent_is_per_axis_extrema [dsA, dsB] dsA [dsB] "d" rfl
     (by decide)⟩

/-- C2 counterexample: an explicitly supplied empty title is not used
unchanged — the `if not title:` truthiness test replaces it with the
`title` metadata of `datasets[0]`. -/
theorem title_empty_string_falls_back :
    _store_figure_parameters [dsA] none (some "d") none 0 none none (some "")
      none none =
      .ok ⟨[dsA], none, "d", none, "d", "The title", "The citation", "id"⟩ ∧
    "The title" ≠ "" := by
  exact ⟨rfl, by decide⟩

/-- C2 witness: the amended fallback rule applied to a concrete call with a
caller-supplied non-empty title. -/
theorem annotation_fallbacks_witness :
    (_store_figure_parameters [dsA] none none none 0 none none (some "T") none
      none = .ok ⟨[dsA], none, "t", none, "t", "T", "The citation", "id"⟩) ∧
    ((⟨[dsA], none, "t", none, "t", "T", "The citation", "id"⟩ :
        FigParams).title =
      (if truthy (some "T") then (some "T").getD ""
       else get_metadata_item_value dsA "title") ∧
     (⟨[dsA], none, "t", none, "t", "T", "The citation", "id"⟩ :
        FigParams).caption =
      (if truthy none then (none : Option String).getD ""
       else get_metadata_item_value dsA "citation") ∧
     (⟨[dsA], none, "t", none, "t", "T", "The citation", "id"⟩ :
        FigParams).label_key =
      (if truthy none then (none : Option String).getD "" else "id")) :=
  ⟨rfl, annotation_fallbacks dsA [] none none none 0 none none (some "T") none
    none ⟨[dsA], none, "t", none, "t", "T", "The citation", "id"⟩ rfl⟩

/-- C3 counterexample: with no `color` in the caller's `opts`, the call adds
one — the returned `opts` dict differs from the empty dict passed in. -/
theorem opts_color_mutation :
    plot_datasets [dsA] none none none 0 none none none none none [] =
      .ok (⟨[dsA], none, "t", none, "t", "The title", "The citation", "id"⟩,
        [("color", "C0")],
        [⟨none, [2010, 2011, 2012], "1", [("color", "C0")]⟩]) ∧
    [("color", "C0")] ≠ ([] : List (String × String)) := by
  exact ⟨rfl, by decide⟩

/-- C3 witness: the amended frame property applied to a concrete call whose
caller fixed a `color`. -/
theorem plot_datasets_opts_effect_witness :
    (plot_datasets [dsA] none none none 0 none none none none none
      [("color", "red")] =
      .ok (⟨[dsA], none, "t", none, "t", "The title", "The citation", "id"⟩,
        [("color", "red")],
        [⟨none, [2010, 2011, 2012], "1", [("color", "red")]⟩])) ∧
    ((⟨[dsA], none, "t", none, "t", "The title", "The citation", "id"⟩ :
        FigParams).datasets = [dsA] ∧
     (dictContains [("color", "red")] "color" = true →
       [("color", "red")] = [("color", "red")]) ∧
     (dictContains [("color", "red")] "color" = false → [dsA] ≠ [] →
       dictContains [("color", "red")] "color" = true)) :=
  ⟨rfl, plot_datasets_opts_effect [dsA] none none none 0 none none none none
    none [("color", "red")]
    ⟨[dsA], none, "t", none, "t", "The title", "The citation", "id"⟩
    [("color", "red")] [⟨none, [2010, 2011, 2012], "1", [("color", "red")]⟩]
    rfl⟩

/-- C4 counterexample: `yidx = -1` lies outside `[0, 2)` for the two-column
dataset `dsA` yet resolution succeeds, resolving to the last column. -/
theorem negative_yidx_accepted :
    _store_figure_parameters [dsA] none none none (-1) none none none none
      none =
      .ok ⟨[dsA], none, "d", none, "d", "The title", "The citation", "id"⟩ := by
  rfl

/-- C4 witness: the amended range rule at concrete indices 10 (rejected) and
1 (resolved to the second column). -/
theorem column_index_range_witness :
    (_store_figure_parameters [dsA] none none none 10 none none none none
      none = .error .columnIndexOutOfRange) ∧
    (∃ p, _store_figure_parameters [dsA] none none none 1 none none none none
      none = .ok p ∧ p.ycol = (⟨"d", [1, 5, 3]⟩ : Series).name) :=
  ⟨(column_index_range dsA [] 10).1 (Or.inr (by decide)),
   (column_index_range dsA [] 1).2.1 ⟨"d", [1, 5, 3]⟩ (by decide) rfl⟩

/-- C6 counterexample: resolution on an empty dataset list succeeds when the
title, caption, label_key and ycol are all caller-supplied and no xidx is
given — no `EmptyInputError` is raised. -/
theorem empty_datasets_resolution_succeeds :
    _store_figure_parameters [] none (some "y") none 0 none none (some "T")
      (some "C") (some "K") =
      .ok ⟨[], none, "y", none, "y", "T", "C", "K"⟩ := by
  rfl

/-- C6 witness: the amended rule at concrete calls — the extent on an empty
list, and resolution on an empty list with a falsy title. -/
theorem empty_datasets_errors_witness :
    get_plot_data_extent [] none "d" = .error .emptyInput ∧
    _store_figure_parameters [] none none none 0 none none none none none =
      .error .emptyInput :=
  ⟨empty_datasets_errors.1 none "d",
   empty_datasets_errors.2 none none none 0 none none none none none
    (Or.inl rfl)⟩

/-- C7 counterexample: a caller-supplied empty xlabel is not used verbatim —
resolution replaces it with the resolved x-column identity. -/
theorem empty_xlabel_falls_back :
    _store_figure_parameters [dsA] (some "t") (some "d") none 0 (some "") none
      (some "T") (some "C") (some "K") =
      .ok ⟨[dsA], some "t", "d", some "t", "d", "T", "C", "K"⟩ ∧
    some "t" ≠ some "" := by
  exact ⟨rfl, by decide⟩

/-- C7 witness: the amended label rule applied to a concrete successful
resolution with no caller-supplied labels. -/
theorem axis_label_fallbacks_witness :
    (_store_figure_parameters [dsA] none none none 0 none none none none none =
      .ok ⟨[dsA], none, "t", none, "t", "The title", "The citation", "id"⟩) ∧
    ((⟨[dsA], none, "t", none, "t", "The title", "The citation", "id"⟩ :
        FigParams).xlabel =
      (if truthy none then (none : Option String)
       else (⟨[dsA], none, "t", none, "t", "The title", "The citation",
         "id"⟩ : FigParams).xcol) ∧
     (⟨[dsA], none, "t", none, "t", "The title", "The citation", "id"⟩ :
        FigParams).ylabel =
      (if truthy none then (none : Option String).getD ""
       else (⟨[dsA], none, "t", none, "t", "The title", "The citation",
         "id"⟩ : FigParams).ycol)) :=
  ⟨rfl, axis_label_fallbacks dsA [] none none none 0 none none none none none
    ⟨[dsA], none, "t", none, "t", "The title", "The citation", "id"⟩ rfl⟩

/-- C8 witness: precedence of a concrete non-empty `xcol` over a
simultaneously supplied `xidx`. -/
theorem xcol_overrides_xidx_witness :
    (_store_figure_parameters [dsA] (some "t") none (some 1) 0 none none none
      none none =
      _store_figure_parameters [dsA] (some "t") none none 0 none none none
      none none) ∧
    (⟨[dsA], some "t", "t", some "t", "t", "The title", "The citation",
      "id"⟩ : FigParams).xcol = some "t" :=
  ⟨(xcol_overrides_xidx [dsA] "t" (by decide) none 1 0 none none none none
      none).1,
   (xcol_overrides_xidx [dsA] "t" (by decide) none 1 0 none none none none
      none).2
    ⟨[dsA], some "t", "t", some "t", "t", "The title", "The citation", "id"⟩
    rfl⟩

/-- C9 witness: the extent of two concrete datasets is ordered on both
axes. -/
theorem extent_ordered_witness :
    ([dsA, dsB] ≠ [] ∧
      (∀ d ∈ [dsA, dsB], ∀ s ∈ d.data.cols,
        s.values.length = d.data.nrows) ∧
      get_plot_data_extent [dsA, dsB] (some "t") "d" =
        .ok [2010, 2012, 0, 7]) ∧
    (∃ l r b t, [(2010 : Int), 2012, 0, 7] = [l, r, b, t] ∧ l ≤ r ∧ b ≤ t) :=
  ⟨⟨by decide, by decide, rfl⟩,
   extent_ordered [dsA, dsB] (some "t") "d" [2010, 2012, 0, 7] (by decide)
    (by decide) rfl⟩

/-- C10 witness: `yidx = -1` and `xidx = -1` on the two-column dataset `dsA`
resolve to the label of column `2 + (-1) = 1`. -/
theorem negative_index_resolves_witness :
    ((-1 : Int) < 0 ∧ -(dsA.data.cols.length : Int) ≤ -1 ∧
      dsA.data.cols.get? ((dsA.data.cols.length : Int) + -1).toNat =
        some ⟨"d", [1, 5, 3]⟩) ∧
    ((∃ p, _store_figure_parameters [dsA] none none none (-1) none none none
      none none = .ok p ∧ p.ycol = (⟨"d", [1, 5, 3]⟩ : Series).name) ∧
     (∃ p, _store_figure_parameters [dsA] none (some "Y") (some (-1)) 0 none
       none none none none = .ok p ∧
       p.xcol = some (⟨"d", [1, 5, 3]⟩ : Series).name)) :=
  ⟨⟨by decide, by decide, by decide⟩,
   (negative_index_resolves dsA [] (-1) ⟨"d", [1, 5, 3]⟩ (by decide) (by decide)
     (by decide)).1,
   (negative_index_resolves dsA [] (-1) ⟨"d", [1, 5, 3]⟩ (by decide) (by decide)
     (by decide)).2 "Y" (by decide)⟩
